import Mathlib

/-!
Shallow embedding of the BaselineFlow feature-compatibility engine.

The engine resolves source-code tokens to web-platform features and
classifies them against a configured Baseline target.  The embedding
translates, from the TypeScript sources:
  * `src/core/BaselineChecker.ts` — registry lookup and classification;
  * `src/analyzers/CSSAnalyzer.ts` — the CSS feature extractor;
  * `SimpleJavaScriptAnalyzer` — the line-based script extractor;
  * `src/core/Analyzer.ts` — aggregation (compatibility score);
  * `JSONReporter.calculateRiskScore` — the JSON-report risk score.

External collaborators are modelled as inputs:
  * the `web-features` dataset is a list of (id, feature-record) pairs;
  * the JavaScript `Map` is an association list in insertion order with
    unique keys;
  * the postcss parse result is an `Except` value whose success case
    carries the three node traversals (`walkDecls`, `walkRules`,
    `walkAtRules`) that the extractor consumes;
  * the postcss-selector-parser result is carried on each rule node
    (`none` models a parser exception, which the extractor catches);
  * the JavaScript regular-expression engine is an oracle
    `String → String → Bool` taking the regex source text and the line.

JavaScript numbers are modelled exactly: `Math.round (p / q)` for
non-negative integers is `(2 * p + q) / (2 * q)` in natural division.
-/

namespace BaselineFlow

/-- Baseline tier, the three-way classification of `types/index.ts`. -/
inductive Tier where
  | widely
  | newly
  | limited
deriving DecidableEq, Repr

/-- Severity of a reported usage. -/
inductive Severity where
  | error
  | warning
  | info
deriving DecidableEq, Repr

/-- `BrowserSupport` from `types/index.ts`: all fields optional. -/
structure BrowserSupport where
  chrome : Option String
  firefox : Option String
  safari : Option String
  edge : Option String
  chrome_android : Option String
  firefox_android : Option String
  safari_ios : Option String
deriving DecidableEq, Repr

/-- The empty browser-support object `{}`. -/
def emptySupport : BrowserSupport := ⟨none, none, none, none, none, none, none⟩

/-- The `status` object of a `web-features` record: a raw baseline level
(the dataset uses the strings "high" and "low", or the value false,
which the code only tests by equality with "high" / "low") and an
optional per-browser support map. -/
structure FeatureStatus where
  baseline : String
  support : Option BrowserSupport
deriving DecidableEq, Repr

/-- A `web-features` record as consumed by `BaselineChecker`: optional
display name, optional status, and raw compatibility-key strings. -/
structure Feature where
  name : Option String
  status : Option FeatureStatus
  compat_features : List String
deriving DecidableEq, Repr

/-- The checker's `featureMap`, a JavaScript `Map` modelled as an
association list in insertion order with unique keys. -/
abbrev FeatureMap := List (String × Feature)

/-- `Map.has`. -/
def mapHas (m : FeatureMap) (k : String) : Bool :=
  m.any (fun e => e.1 == k)

/-- `Map.get`: keys are unique, so the first hit is the binding. -/
def mapGet (m : FeatureMap) (k : String) : Option Feature :=
  (m.find? (fun e => e.1 == k)).map (fun e => e.2)

/-- `Map.set`: overwrite in place if the key exists, else append. -/
def mapSet (m : FeatureMap) (k : String) (v : Feature) : FeatureMap :=
  if m.any (fun e => e.1 == k) then
    m.map (fun e => if e.1 == k then (k, v) else e)
  else
    m ++ [(k, v)]

/-- `BaselineConfig` from `types/index.ts`. -/
structure BaselineConfig where
  target : String
  browsers : List String
  exceptions : List String
  ignoreFiles : List String
  framework : Option String
  generateFixes : Bool
  reportFormat : String
  outputFile : Option String
deriving DecidableEq, Repr

/-- Character-list test used to model `String.includes` and
`String.startsWith`. -/
def isPre : List Char → List Char → Bool
  | [], _ => true
  | _ :: _, [] => false
  | a :: as, b :: bs => a == b && isPre as bs

/-- Substring occurrence on character lists. -/
def hasSub (sub : List Char) : List Char → Bool
  | [] => sub.isEmpty
  | c :: cs => isPre sub (c :: cs) || hasSub sub cs

/-- JavaScript `s.includes(sub)`. -/
def strIncludes (s sub : String) : Bool :=
  hasSub sub.data s.data

/-- JavaScript `s.startsWith(pre)`. -/
def strStartsWith (s pre : String) : Bool :=
  isPre pre.data s.data

/-- JavaScript `s.slice(n)` for a non-negative start. -/
def jsDrop (s : String) (n : Nat) : String :=
  String.mk (s.data.drop n)

/-- JavaScript `s.toLowerCase()`: lowercase every character. -/
def jsToLowerCase (s : String) : String :=
  String.mk (s.data.map Char.toLower)

/-- Whitespace trimmed by JavaScript `s.trim()`. -/
def isTrimSpace (c : Char) : Bool :=
  c == ' ' || c == '\t' || c == '\n' || c == '\r' || c == '\x0b' || c == '\x0c'

/-- JavaScript `s.trim()`. -/
def jsTrim (s : String) : String :=
  String.mk (((s.data.dropWhile isTrimSpace).reverse.dropWhile isTrimSpace).reverse)

/-- One separator step of JavaScript `s.split(sep)` for a one-character
separator. -/
def splitOnChar (sep : Char) : List Char → List (List Char)
  | [] => [[]]
  | c :: cs =>
    if c == sep then [] :: splitOnChar sep cs
    else
      match splitOnChar sep cs with
      | r :: rs => (c :: r) :: rs
      | [] => [[c]]

/-- JavaScript `s.split(sep)` for a one-character separator. -/
def jsSplit (s : String) (sep : Char) : List String :=
  (splitOnChar sep s.data).map String.mk

/-- Vendor-prefix removal, `property.replace(/^-(?:webkit-|moz-|ms-|o-)/, "")`. -/
def stripVendor (p : String) : String :=
  if strStartsWith p "-webkit-" then jsDrop p 8
  else if strStartsWith p "-moz-" then jsDrop p 5
  else if strStartsWith p "-ms-" then jsDrop p 4
  else if strStartsWith p "-o-" then jsDrop p 3
  else p

/-- camelCase → kebab-case: `property.replace(/([A-Z])/g, "-$1").toLowerCase()`. -/
def toKebab (p : String) : String :=
  jsToLowerCase (String.mk (p.data.flatMap (fun c => if c.isUpper then ['-', c] else [c])))

/-- `BaselineChecker.generateCssVariations`, preserving push order. -/
def generateCssVariations (property : String) : List String :=
  let withoutVendor := stripVendor property
  let kebab := toKebab property
  [property]
    ++ (if withoutVendor ≠ property then [withoutVendor] else [])
    ++ [kebab, "css-" ++ withoutVendor, "css.properties." ++ withoutVendor]

/-- `BaselineChecker.fuzzySearch`: first entry, in insertion order, whose
key or lowercased display name contains the lowercased query. -/
def fuzzySearch (m : FeatureMap) (query : String) : Option Feature :=
  let queryLower := jsToLowerCase query
  (m.find? (fun e =>
    strIncludes e.1 queryLower ||
      (match e.2.name with
       | some n => strIncludes (jsToLowerCase n) queryLower
       | none => false))).map (fun e => e.2)

/-- `BaselineChecker.findFeature`: exact, lowercase, CSS variations,
then the substring fallback. -/
def findFeature (m : FeatureMap) (query : String) : Option Feature :=
  if mapHas m query then mapGet m query
  else
    let lowerQuery := jsToLowerCase query
    if mapHas m lowerQuery then mapGet m lowerQuery
    else
      match (generateCssVariations query).find? (fun v => mapHas m v) with
      | some v => mapGet m v
      | none => fuzzySearch m query

/-- `BaselineChecker.getBaselineStatus`: high → widely, low → newly,
anything else → limited. -/
def getBaselineStatus (status : FeatureStatus) : Tier :=
  if status.baseline == "high" then .widely
  else if status.baseline == "low" then .newly
  else .limited

/-- `BaselineChecker.getBrowserSupport`: project `status.support?.x`
for the fixed browser set; a missing support object yields all-absent. -/
def getBrowserSupport (status : FeatureStatus) : BrowserSupport :=
  match status.support with
  | none => emptySupport
  | some s => s

/-- `BaselineChecker.evaluateCriteria`.  The unused `isException`
binding mirrors the source, which computes it and never reads it. -/
def evaluateCriteria (config : BaselineConfig) (baseline : Tier) : Bool :=
  let _isException := config.exceptions.length > 0
  if config.target == "widely-available" then baseline == Tier.widely
  else if config.target == "newly-available" then
    baseline == Tier.widely || baseline == Tier.newly
  else if config.target == "limited" then true
  else false

/-- `BaselineChecker.generateSuggestion`. -/
def generateSuggestion (config : BaselineConfig) (_feature : Feature) (baseline : Tier) :
    Option String :=
  if baseline == Tier.limited then
    some "Consider using a polyfill or waiting for broader browser support. Check caniuse.com for alternatives."
  else if baseline == Tier.newly && config.target == "widely-available" then
    some "Feature is newly available in Baseline. Consider progressive enhancement or polyfills for older browsers."
  else none

/-- Result record of `BaselineChecker.checkFeature`. -/
structure CheckResult where
  baseline : Option Tier
  browsers : BrowserSupport
  meetsCriteria : Bool
  suggestion : Option String
deriving DecidableEq, Repr

/-- `BaselineChecker.checkFeature`: point query.  A missing record or a
record without a status yields the explicit not-found descriptor. -/
def checkFeature (m : FeatureMap) (config : BaselineConfig) (featureId : String) :
    CheckResult :=
  match findFeature m featureId with
  | none =>
    ⟨none, emptySupport, false,
      some ("Feature \"" ++ featureId ++ "\" not found in web-features database")⟩
  | some feature =>
    match feature.status with
    | none =>
      ⟨none, emptySupport, false,
        some ("Feature \"" ++ featureId ++ "\" not found in web-features database")⟩
    | some status =>
      let baseline := getBaselineStatus status
      ⟨some baseline, getBrowserSupport status, evaluateCriteria config baseline,
        generateSuggestion config feature baseline⟩

/-- `BaselineChecker.addCommonMappings`: static alias table keyed by id. -/
def addCommonMappings (id : String) (f : Feature) (m : FeatureMap) : FeatureMap :=
  let aliases : List String :=
    if id == "flexbox" then ["flex", "flexbox", "css-flexbox"]
    else if id == "css-grid" then ["grid", "css-grid", "grid-template-columns"]
    else if id == "container-queries" then ["container-queries", "@container"]
    else if id == "custom-properties" then
      ["css-variables", "css-custom-properties", "--"]
    else if id == "fetch" then ["fetch", "fetch-api"]
    else if id == "promises" then ["promise", "promises"]
    else if id == "async-functions" then ["async", "async-await"]
    else if id == "arrow-functions" then ["arrow-functions", "=>"]
    else if id == "template-literals" then ["template-literals", "template-strings"]
    else if id == "destructuring-assignment" then ["destructuring"]
    else if id == "spread-syntax" then ["spread-operator", "..."]
    else if id == "optional-chaining" then ["?."]
    else if id == "nullish-coalescing" then ["??"]
    else []
  aliases.foldl (fun acc a => mapSet acc a f) m

/-- One entry of `BaselineChecker.initializeFeatureMap`: index by id,
lowercased display name, each raw compatibility key, the bare property
of `css.properties.` keys, and the common aliases. -/
def initEntry (m : FeatureMap) (e : String × Feature) : FeatureMap :=
  let m := mapSet m e.1 e.2
  let m := match e.2.name with
    | some n => mapSet m (jsToLowerCase n) e.2
    | none => m
  let m := e.2.compat_features.foldl (fun acc compat =>
    let acc := mapSet acc compat e.2
    if strStartsWith compat "css.properties." then mapSet acc (jsDrop compat 15) e.2
    else acc) m
  addCommonMappings e.1 e.2 m

/-- `BaselineChecker.initializeFeatureMap` over the external dataset. -/
def initializeFeatureMap (dataset : List (String × Feature)) : FeatureMap :=
  dataset.foldl initEntry []

/-! ## FeatureUsage and the CSS extractor (`CSSAnalyzer`) -/

/-- `FeatureUsage` from `types/index.ts`. -/
structure FeatureUsage where
  feature : String
  featureId : String
  file : String
  line : Nat
  column : Nat
  context : String
  baseline : Option Tier
  browsers : BrowserSupport
  severity : Severity
  suggestion : Option String
  polyfill : Option String
  alternative : Option String
deriving DecidableEq, Repr

/-- `FileAnalysis` from `types/index.ts` (the `type` union as a string). -/
structure FileAnalysis where
  file : String
  type : String
  features : List FeatureUsage
deriving DecidableEq, Repr

/-- A postcss declaration node as the extractor reads it: property,
value, the `source.start` position (already defaulted with `|| 0`), and
the node's `toString()` serialization. -/
structure DeclNode where
  prop : String
  value : String
  line : Nat
  column : Nat
  raw : String
deriving DecidableEq, Repr

/-- Output of the external postcss-selector-parser walks over one rule:
visited pseudo values, attribute names, and combinator values. -/
structure SelectorParts where
  pseudos : List String
  attributes : List String
  combinators : List String
deriving DecidableEq, Repr

/-- A postcss rule node; `sel = none` models a selector-parser
exception, which `analyzeSelector` catches and ignores. -/
structure RuleNode where
  selector : String
  sel : Option SelectorParts
  line : Nat
  column : Nat
  raw : String
deriving DecidableEq, Repr

/-- A postcss at-rule node. -/
structure AtRuleNode where
  name : String
  params : String
  line : Nat
  column : Nat
  raw : String
deriving DecidableEq, Repr

/-- Successful postcss parse: the three traversals the extractor
consumes (`walkDecls`, `walkRules`, `walkAtRules`), in visit order. -/
structure PostcssRoot where
  decls : List DeclNode
  rules : List RuleNode
  atRules : List AtRuleNode
deriving DecidableEq, Repr

/-- The node handed to `checkFeature` / `getContext`. -/
inductive CssNodeRef where
  | decl (d : DeclNode)
  | rule (r : RuleNode)
  | atRule (a : AtRuleNode)
deriving DecidableEq, Repr

/-- `node.source?.start?.line || 0`. -/
def nodeLine : CssNodeRef → Nat
  | .decl d => d.line
  | .rule r => r.line
  | .atRule a => a.line

/-- `node.source?.start?.column || 0`. -/
def nodeColumn : CssNodeRef → Nat
  | .decl d => d.column
  | .rule r => r.column
  | .atRule a => a.column

/-- `node.toString()`. -/
def nodeRaw : CssNodeRef → String
  | .decl d => d.raw
  | .rule r => r.raw
  | .atRule a => a.raw

/-- JavaScript `s.slice(0, n)` for a non-negative bound. -/
def jsSlice (s : String) (n : Nat) : String :=
  String.mk (s.data.take n)

/-- `CSSAnalyzer.getContext`.  The typed branches apply TypeScript casts
that only ever see the matching node kind; an impossible kind falls to
the default serialization. -/
def getContext (node : CssNodeRef) (ty : String) : String :=
  if ty == "property" then
    match node with
    | .decl d => d.prop ++ ": " ++ d.value
    | n => jsSlice (nodeRaw n) 100 ++ (if 100 < (nodeRaw n).length then "..." else "")
  else if ty == "at-rule" then
    match node with
    | .atRule a => "@" ++ a.name ++ " " ++ a.params
    | n => jsSlice (nodeRaw n) 100 ++ (if 100 < (nodeRaw n).length then "..." else "")
  else if ty == "pseudo-selector" then
    match node with
    | .rule r => "selector: " ++ r.selector
    | n => jsSlice (nodeRaw n) 100 ++ (if 100 < (nodeRaw n).length then "..." else "")
  else
    jsSlice (nodeRaw node) 100 ++ (if 100 < (nodeRaw node).length then "..." else "")

/-- `CSSAnalyzer.getPolyfillSuggestion`. -/
def cssPolyfill (featureId : String) : Option String :=
  if featureId == "css-grid" then some "CSS Grid polyfill or Flexbox fallback"
  else if featureId == "custom-properties" then some "PostCSS custom properties plugin"
  else if featureId == "gap" then some "Use margin/padding for older browsers"
  else if featureId == "object-fit" then some "object-fit-images polyfill"
  else if featureId == "sticky" then some "position: -webkit-sticky; position: sticky;"
  else none

/-- `CSSAnalyzer.getAlternativeSuggestion`. -/
def cssAlternative (featureId : String) : Option String :=
  if featureId == "css-grid" then some "Use Flexbox for simpler layouts"
  else if featureId == "gap" then some "Use margin or padding properties"
  else if featureId == "aspect-ratio" then some "Use padding-bottom percentage technique"
  else if featureId == "clamp" then some "Use calc() with min/max functions"
  else if featureId == "container-queries" then some "Use media queries as fallback"
  else none

/-- `CSSAnalyzer.determineSeverity`. -/
def cssDetermineSeverity (baseline : Tier) (meetsCriteria : Bool) : Severity :=
  if !meetsCriteria then
    if baseline == Tier.limited then .error else .warning
  else .info

/-- `CSSAnalyzer.checkFeature`: query the checker and push one usage
when the tier is non-null (modelled as the emitted sub-list). -/
def cssEmit (m : FeatureMap) (config : BaselineConfig) (featureId : String)
    (node : CssNodeRef) (filePath : String) (ty : String) : List FeatureUsage :=
  let result := checkFeature m config featureId
  match result.baseline with
  | none => []
  | some b =>
    [{ feature := featureId
       featureId := featureId
       file := filePath
       line := nodeLine node
       column := nodeColumn node
       context := getContext node ty
       baseline := some b
       browsers := result.browsers
       severity := cssDetermineSeverity b result.meetsCriteria
       suggestion := result.suggestion
       polyfill := cssPolyfill featureId
       alternative := cssAlternative featureId }]

/-- Character class `[a-zA-Z-]` of the value-function regex. -/
def isFuncChar (c : Char) : Bool := c.isAlpha || c == '-'

/-- Regex `\s`. -/
def isSpaceChar (c : Char) : Bool :=
  c == ' ' || c == '\t' || c == '\n' || c == '\r'

/-- Character class `[a-zA-Z%]` of the unit regex. -/
def isUnitChar (c : Char) : Bool := c.isAlpha || c == '%'

/-- Global matches of `/([a-zA-Z-]+)\s*\(/` over the declaration value:
the captured function names, in scan order.  On a match the scan
resumes after the opening paren; on failure a whole candidate run is
skipped, which the pattern shape makes equivalent to the single-step
advance of the regex engine. -/
def scanFunctions : List Char → List String
  | [] => []
  | c :: cs =>
    if hc : isFuncChar c then
      let name := (c :: cs).takeWhile isFuncChar
      let rest := (c :: cs).dropWhile isFuncChar
      let rest2 := rest.dropWhile isSpaceChar
      if rest2.head? = some '(' then String.mk name :: scanFunctions rest2.tail
      else scanFunctions rest
    else scanFunctions cs
termination_by l => l.length
decreasing_by
  all_goals
    have hdw : ∀ (p : Char → Bool) (l : List Char), (l.dropWhile p).length ≤ l.length := by
      intro p l
      induction l with
      | nil => simp [List.dropWhile]
      | cons a as ih => by_cases h : p a <;> simp [List.dropWhile, h] <;> omega
  · have h2 : List.dropWhile isFuncChar (c :: cs) = List.dropWhile isFuncChar cs :=
      List.dropWhile_cons_of_pos hc
    rw [h2]
    have h3 := hdw isSpaceChar (List.dropWhile isFuncChar cs)
    have h4 := hdw isFuncChar cs
    have h5 := List.length_tail
      (List.dropWhile isSpaceChar (List.dropWhile isFuncChar cs))
    simp only [List.length_cons]
    omega
  · have h2 : List.dropWhile isFuncChar (c :: cs) = List.dropWhile isFuncChar cs :=
      List.dropWhile_cons_of_pos hc
    have h4 := hdw isFuncChar cs
    rw [h2]
    simp only [List.length_cons]
    omega
  · simp

/-- The optional fraction step `(\.\d+)?` of the unit regex: consume a
dot followed by at least one digit, else stay put. -/
def dropFraction (l : List Char) : List Char :=
  match l with
  | '.' :: d :: ds => if d.isDigit then ds.dropWhile Char.isDigit else l
  | _ => l

/-- Global matches of `/\d+(\.\d+)?\s*([a-zA-Z%]+)/` over the value:
the captured unit strings, in scan order. -/
def scanUnits : List Char → List String
  | [] => []
  | c :: cs =>
    if c.isDigit then
      let afterInt := cs.dropWhile Char.isDigit
      let afterFrac := dropFraction afterInt
      let afterSp := afterFrac.dropWhile isSpaceChar
      let unit := afterSp.takeWhile isUnitChar
      if unit.isEmpty then scanUnits afterFrac
      else String.mk unit :: scanUnits (afterSp.dropWhile isUnitChar)
    else scanUnits cs
termination_by l => l.length
decreasing_by
  all_goals
    have hdw : ∀ (p : Char → Bool) (l : List Char), (l.dropWhile p).length ≤ l.length := by
      intro p l
      induction l with
      | nil => simp [List.dropWhile]
      | cons a as ih => by_cases h : p a <;> simp [List.dropWhile, h] <;> omega
  all_goals
    have hdf : ∀ (l : List Char), (dropFraction l).length ≤ l.length := by
      intro l
      unfold dropFraction
      split
      · rename_i d ds
        split
        · have := hdw Char.isDigit ds
          simp only [List.length_cons]
          omega
        · exact le_rfl
      · exact le_rfl
  · have h1 := hdf (List.dropWhile Char.isDigit cs)
    have h2 := hdw Char.isDigit cs
    simp only [List.length_cons]
    omega
  · have h1 := hdw isUnitChar
      ((dropFraction (List.dropWhile Char.isDigit cs)).dropWhile isSpaceChar)
    have h2 := hdw isSpaceChar (dropFraction (List.dropWhile Char.isDigit cs))
    have h3 := hdf (List.dropWhile Char.isDigit cs)
    have h4 := hdw Char.isDigit cs
    simp only [List.length_cons]
    omega
  · simp

/-- The fixed keyword list of `CSSAnalyzer.analyzeValue`. -/
def cssKeywords : List String :=
  ["initial", "inherit", "unset", "revert", "revert-layer",
   "fit-content", "max-content", "min-content",
   "stretch", "start", "end", "flex-start", "flex-end",
   "space-between", "space-around", "space-evenly"]

/-- The tracked unit set of `CSSAnalyzer.analyzeValue`. -/
def cssUnits : List String := ["vh", "vw", "vmin", "vmax", "ch", "rem", "fr"]

/-- `CSSAnalyzer.analyzeValue`: function calls, then keywords, then
units, in emission order. -/
def analyzeValue (m : FeatureMap) (config : BaselineConfig) (value : String)
    (node : CssNodeRef) (filePath : String) : List FeatureUsage :=
  (scanFunctions value.data).flatMap
      (fun functionName => cssEmit m config functionName node filePath "function")
    ++ (cssKeywords.filter (fun k => strIncludes value k)).flatMap
      (fun k => cssEmit m config k node filePath "keyword")
    ++ (scanUnits value.data).flatMap
      (fun unit =>
        if cssUnits.contains unit then
          cssEmit m config (unit ++ "-unit") node filePath "unit"
        else [])

/-- `CSSAnalyzer.analyzeDeclaration`: property, value, and the
prefix-stripped property when the property starts with a dash. -/
def analyzeDeclaration (m : FeatureMap) (config : BaselineConfig) (d : DeclNode)
    (filePath : String) : List FeatureUsage :=
  cssEmit m config d.prop (.decl d) filePath "property"
    ++ analyzeValue m config d.value (.decl d) filePath
    ++ (if strStartsWith d.prop "-" then
          cssEmit m config (stripVendor d.prop) (.decl d) filePath "prefixed-property"
        else [])

/-- `CSSAnalyzer.analyzeSelector`: pseudo, attribute, and combinator
walks; a selector-parser exception is caught and yields nothing. -/
def analyzeSelector (m : FeatureMap) (config : BaselineConfig) (r : RuleNode)
    (filePath : String) : List FeatureUsage :=
  match r.sel with
  | none => []
  | some parts =>
    parts.pseudos.flatMap
        (fun pv => cssEmit m config pv (.rule r) filePath "pseudo-selector")
      ++ parts.attributes.flatMap
        (fun attr =>
          if attr ≠ "" then
            cssEmit m config ("[" ++ attr ++ "]") (.rule r) filePath "attribute-selector"
          else [])
      ++ parts.combinators.flatMap
        (fun cb =>
          if cb == ">>>" || cb == "/deep/" then
            cssEmit m config "deep-combinator" (.rule r) filePath "combinator"
          else [])

/-- The fixed media-feature vocabulary of `analyzeMediaQuery`. -/
def mediaFeatures : List String :=
  ["prefers-color-scheme", "prefers-reduced-motion", "prefers-contrast",
   "hover", "pointer", "any-hover", "any-pointer",
   "display-mode", "orientation", "aspect-ratio"]

/-- `CSSAnalyzer.analyzeMediaQuery`. -/
def analyzeMediaQuery (m : FeatureMap) (config : BaselineConfig) (query : String)
    (node : CssNodeRef) (filePath : String) : List FeatureUsage :=
  (mediaFeatures.filter (fun f => strIncludes query f)).flatMap
    (fun f => cssEmit m config f node filePath "media-feature")

/-- Global matches of `/\(\s*([a-zA-Z-]+)\s*:/` over `@supports`
params: the captured property names, in scan order. -/
def scanSupports : List Char → List String
  | [] => []
  | c :: cs =>
    if c = '(' then
      let afterSp := cs.dropWhile isSpaceChar
      let name := afterSp.takeWhile isFuncChar
      let rest := afterSp.dropWhile isFuncChar
      let rest2 := rest.dropWhile isSpaceChar
      if name.isEmpty then scanSupports cs
      else if rest2.head? = some ':' then String.mk name :: scanSupports rest2.tail
      else scanSupports cs
    else scanSupports cs
termination_by l => l.length
decreasing_by
  all_goals
    have hdw : ∀ (p : Char → Bool) (l : List Char), (l.dropWhile p).length ≤ l.length := by
      intro p l
      induction l with
      | nil => simp [List.dropWhile]
      | cons a as ih => by_cases h : p a <;> simp [List.dropWhile, h] <;> omega
  · simp
  · have h1 := hdw isSpaceChar cs
    have h2 := hdw isFuncChar (cs.dropWhile isSpaceChar)
    have h3 := hdw isSpaceChar ((cs.dropWhile isSpaceChar).dropWhile isFuncChar)
    have h4 := List.length_tail
      (((cs.dropWhile isSpaceChar).dropWhile isFuncChar).dropWhile isSpaceChar)
    simp only [List.length_cons]
    omega
  · simp

/-- `CSSAnalyzer.analyzeSupportsQuery`. -/
def analyzeSupportsQuery (m : FeatureMap) (config : BaselineConfig) (query : String)
    (node : CssNodeRef) (filePath : String) : List FeatureUsage :=
  (scanSupports query.data).flatMap
    (fun p => cssEmit m config p node filePath "supports-property")

/-- `CSSAnalyzer.analyzeAtRule`: the rule name, then the name-specific
analysis. -/
def analyzeAtRule (m : FeatureMap) (config : BaselineConfig) (a : AtRuleNode)
    (filePath : String) : List FeatureUsage :=
  cssEmit m config ("@" ++ a.name) (.atRule a) filePath "at-rule"
    ++ (if a.name == "media" then
          analyzeMediaQuery m config a.params (.atRule a) filePath
        else if a.name == "supports" then
          analyzeSupportsQuery m config a.params (.atRule a) filePath
        else if a.name == "container" then
          cssEmit m config "container-queries" (.atRule a) filePath "at-rule"
        else if a.name == "layer" then
          cssEmit m config "cascade-layers" (.atRule a) filePath "at-rule"
        else [])

/-- `CSSAnalyzer.analyze`: parse, then the three walks; a postcss parse
error is caught, leaving the features collected so far (none, since the
parse precedes every walk), and the result record is still returned. -/
def cssAnalyze (m : FeatureMap) (config : BaselineConfig)
    (parsed : Except String PostcssRoot) (filePath : String) : FileAnalysis :=
  match parsed with
  | .error _ => { file := filePath, type := "css", features := [] }
  | .ok root =>
    { file := filePath
      type := "css"
      features :=
        root.decls.flatMap (fun d => analyzeDeclaration m config d filePath)
          ++ root.rules.flatMap (fun r => analyzeSelector m config r filePath)
          ++ root.atRules.flatMap (fun a => analyzeAtRule m config a filePath) }

/-! ## The line-based script extractor (`SimpleJavaScriptAnalyzer`)

The JavaScript regular-expression engine is external; a test
`pattern.test(line)` is an oracle `retest : String → String → Bool`
applied to the regex source text and the line.  The detection tables
below carry the exact regex sources of the analyzer. -/

/-- `SimpleJavaScriptAnalyzer.determineSeverity` (a second copy of the
severity rule lives in this class). -/
def jsDetermineSeverity (baseline : Tier) (meetsCriteria : Bool) : Severity :=
  if !meetsCriteria then
    if baseline == Tier.limited then .error else .warning
  else .info

/-- `SimpleJavaScriptAnalyzer.getPolyfillSuggestion`. -/
def jsPolyfill (featureId : String) : Option String :=
  if featureId == "fetch" then some "whatwg-fetch polyfill"
  else if featureId == "promises" then some "es6-promise polyfill"
  else if featureId == "array-includes" then some "core-js polyfill"
  else if featureId == "object-assign" then some "object-assign polyfill"
  else if featureId == "symbol" then some "es6-symbol polyfill"
  else if featureId == "map" then some "es6-map polyfill"
  else if featureId == "set" then some "es6-set polyfill"
  else if featureId == "intersectionobserver" then some "intersection-observer polyfill"
  else if featureId == "resizeobserver" then some "resize-observer-polyfill"
  else if featureId == "web-audio-api" then some "web-audio-api polyfill"
  else none

/-- `SimpleJavaScriptAnalyzer.getAlternativeSuggestion`. -/
def jsAlternative (featureId : String) : Option String :=
  if featureId == "fetch" then some "Use XMLHttpRequest or axios library"
  else if featureId == "promises" then some "Use callback patterns or async libraries"
  else if featureId == "arrow-functions" then some "Use regular function expressions"
  else if featureId == "template-literals" then some "Use string concatenation"
  else if featureId == "optional-chaining" then some "Use manual null checking"
  else if featureId == "nullish-coalescing" then some "Use || operator with careful null checks"
  else none

/-- `SimpleJavaScriptAnalyzer.addFeature`: query the checker and push
one usage when the tier is non-null; the context is the trimmed line
cut to 100 characters and the column is always 0. -/
def addFeature (m : FeatureMap) (config : BaselineConfig) (featureId : String)
    (context : String) (lineNumber : Nat) (filePath : String) : List FeatureUsage :=
  let result := checkFeature m config featureId
  match result.baseline with
  | none => []
  | some b =>
    [{ feature := featureId
       featureId := featureId
       file := filePath
       line := lineNumber
       column := 0
       context := jsSlice (jsTrim context) 100
       baseline := some b
       browsers := result.browsers
       severity := jsDetermineSeverity b result.meetsCriteria
       suggestion := result.suggestion
       polyfill := jsPolyfill featureId
       alternative := jsAlternative featureId }]

/-- The `syntaxPatterns` table: (regex source, feature, description). -/
def synTable : List (String × String × String) :=
  [("=>\\s*", "arrow-functions", "Arrow function syntax"),
   ("`[^`]*\\$\\\x7b[^\x7d]*\\\x7d[^`]*`", "template-literals",
     "Template literal with interpolation"),
   ("\\.\\.\\.[a-zA-Z_$][a-zA-Z0-9_$]*", "spread-syntax", "Spread operator"),
   ("async\\s+function", "async-functions", "Async function declaration"),
   ("await\\s+", "async-await", "Await expression"),
   ("\\?\\?", "nullish-coalescing", "Nullish coalescing operator"),
   ("\\?\\.", "optional-chaining", "Optional chaining operator"),
   ("class\\s+[a-zA-Z_$][a-zA-Z0-9_$]*", "es6-class", "ES6 class declaration"),
   ("\\*\\*", "exponentiation-operator", "Exponentiation operator")]

/-- The `apiPatterns` table: (regex source, feature, description). -/
def apiTable : List (String × String × String) :=
  [("fetch\\s*\\(", "fetch", "Fetch API"),
   ("new\\s+Promise\\s*\\(", "promises", "Promise constructor"),
   ("navigator\\.serviceWorker", "serviceworker", "Service Worker API"),
   ("navigator\\.geolocation", "geolocation", "Geolocation API"),
   ("navigator\\.share", "web-share", "Web Share API"),
   ("navigator\\.clipboard", "clipboard-api", "Clipboard API"),
   ("localStorage\\.|sessionStorage\\.", "webstorage", "Web Storage API"),
   ("new\\s+IntersectionObserver", "intersectionobserver", "Intersection Observer API"),
   ("new\\s+ResizeObserver", "resizeobserver", "Resize Observer API"),
   ("new\\s+MutationObserver", "mutationobserver", "Mutation Observer API"),
   ("new\\s+AbortController", "abortcontroller", "AbortController API"),
   ("new\\s+Map\\s*\\(", "map", "Map constructor"),
   ("new\\s+Set\\s*\\(", "set", "Set constructor"),
   ("new\\s+WeakMap", "weakmap", "WeakMap constructor"),
   ("new\\s+WeakSet", "weakset", "WeakSet constructor"),
   ("Symbol\\s*\\(", "symbol", "Symbol constructor"),
   ("new\\s+Proxy", "proxy", "Proxy constructor"),
   ("requestAnimationFrame\\s*\\(", "requestanimationframe", "Request Animation Frame"),
   ("new\\s+URL\\s*\\(", "url", "URL constructor"),
   ("new\\s+URLSearchParams", "url-api", "URL Search Params"),
   ("new\\s+FormData", "formdata", "FormData constructor"),
   ("new\\s+Blob", "blob", "Blob constructor"),
   ("new\\s+FileReader", "filereader", "FileReader constructor"),
   ("new\\s+Worker", "web-workers", "Web Workers"),
   ("new\\s+WebSocket", "websockets", "WebSocket constructor"),
   ("new\\s+EventSource", "eventsource", "EventSource constructor"),
   ("new\\s+XMLHttpRequest", "xhr", "XMLHttpRequest constructor")]

/-- The fixed array-method set. -/
def arrayMethods : List String :=
  ["find", "findIndex", "includes", "entries", "keys", "values",
   "map", "filter", "reduce", "forEach", "some", "every",
   "flat", "flatMap", "from", "of"]

/-- The fixed string-method set. -/
def stringMethods : List String :=
  ["startsWith", "endsWith", "includes", "repeat", "padStart", "padEnd",
   "trim", "trimStart", "trimEnd", "replaceAll"]

/-- The fixed `Object.*` method set. -/
def objectMethods : List String :=
  ["assign", "keys", "values", "entries", "fromEntries",
   "getOwnPropertyDescriptors", "hasOwn"]

/-- `SimpleJavaScriptAnalyzer.analyzeLineForFeatures`, preserving the
execution order: array methods, string methods, object methods, the
`syntaxPatterns` table, the `apiPatterns` table. -/
def analyzeLineForFeatures (retest : String → String → Bool) (m : FeatureMap)
    (config : BaselineConfig) (line : String) (lineNumber : Nat) (filePath : String) :
    List FeatureUsage :=
  arrayMethods.flatMap (fun mth =>
      if retest ("\\." ++ mth ++ "\\s*\\(") line then
        addFeature m config ("array-" ++ mth) line lineNumber filePath
      else [])
    ++ stringMethods.flatMap (fun mth =>
      if retest ("\\." ++ mth ++ "\\s*\\(") line then
        addFeature m config ("string-" ++ mth) line lineNumber filePath
      else [])
    ++ objectMethods.flatMap (fun mth =>
      if retest ("Object\\." ++ mth ++ "\\s*\\(") line then
        addFeature m config ("object-" ++ mth) line lineNumber filePath
      else [])
    ++ synTable.flatMap (fun e =>
      if retest e.1 line then addFeature m config e.2.1 line lineNumber filePath
      else [])
    ++ apiTable.flatMap (fun e =>
      if retest e.1 line then addFeature m config e.2.1 line lineNumber filePath
      else [])

/-- The analyzer's line loop: `lineNumber = lineIndex + 1`. -/
def analyzeLines (retest : String → String → Bool) (m : FeatureMap)
    (config : BaselineConfig) (filePath : String) :
    List String → Nat → List FeatureUsage
  | [], _ => []
  | l :: ls, idx =>
    analyzeLineForFeatures retest m config l (idx + 1) filePath
      ++ analyzeLines retest m config filePath ls (idx + 1)

/-- `SimpleJavaScriptAnalyzer.getFileType`. -/
def getFileType (filePath : String) : String :=
  let ext := ((jsSplit filePath '.').getLast?.map jsToLowerCase).getD ""
  if ext == "ts" then "typescript"
  else if ext == "tsx" then "tsx"
  else if ext == "jsx" then "jsx"
  else "javascript"

/-- `SimpleJavaScriptAnalyzer.analyze`: split on newline and scan each
line; no failure path exists. -/
def jsAnalyze (retest : String → String → Bool) (m : FeatureMap)
    (config : BaselineConfig) (content : String) (filePath : String) : FileAnalysis :=
  { file := filePath
    type := getFileType filePath
    features := analyzeLines retest m config filePath (jsSplit content '\n') 0 }

/-! ## Aggregation (`Analyzer`) and the JSON-report risk score -/

/-- `Math.round (num / den)` for non-negative integers, `den ≠ 0`:
round-half-up, `⌊num / den + 1 / 2⌋`. -/
def mathRound (num den : Nat) : Nat := (2 * num + den) / (2 * den)

/-- `Analyzer.calculateCompatibilityScore`: mean of per-usage points
(widely 100, newly 75, limited 25, default 50), rounded; 100 on empty. -/
def calculateCompatibilityScore (features : List FeatureUsage) : Nat :=
  if features.length = 0 then 100
  else
    let scores := features.map (fun f =>
      match f.baseline with
      | some .widely => 100
      | some .newly => 75
      | some .limited => 25
      | none => 50)
    mathRound (scores.foldl (· + ·) 0) scores.length

/-- The `summary` object of `AnalysisResult`. -/
structure Summary where
  errors : Nat
  warnings : Nat
  suggestions : Nat
  compatibilityScore : Nat
deriving DecidableEq, Repr

/-- `ModernizationSuggestion` from `types/index.ts`. -/
structure ModernizationSuggestion where
  category : String
  oldFeature : String
  newFeature : String
  baselineStatus : String
  impact : String
  effort : String
  description : String
  exampleText : Option String
deriving DecidableEq, Repr

/-- `AnalysisResult` from `types/index.ts`. -/
structure AnalysisResult where
  totalFiles : Nat
  totalFeatures : Nat
  violations : List FeatureUsage
  warnings : List FeatureUsage
  suggestions : List FeatureUsage
  summary : Summary
  modernizationOpportunities : List ModernizationSuggestion
deriving DecidableEq, Repr

/-- `JSONReporter.calculateRiskScore`: weighted violations over the
maximal weight, as a rounded percentage; 0 when no features exist. -/
def calculateRiskScore (result : AnalysisResult) : Nat :=
  let errorWeight := 3
  let warningWeight := 1
  let totalRisk := result.summary.errors * errorWeight + result.summary.warnings * warningWeight
  let maxPossibleRisk := result.totalFeatures * errorWeight
  if maxPossibleRisk = 0 then 0
  else mathRound (totalRisk * 100) maxPossibleRisk

/-! ## Concrete sample data (used to instantiate the theorems) -/

/-- A dataset record with baseline "high". -/
def sampleFeatureHigh : Feature :=
  { name := some "Display"
    status := some
      { baseline := "high"
        support := some
          { chrome := some "1", firefox := some "1", safari := some "1",
            edge := some "12", chrome_android := none, firefox_android := none,
            safari_ios := none } }
    compat_features := [] }

/-- A dataset record carrying no status object. -/
def sampleFeatureNoStatus : Feature :=
  { name := some "Mystery", status := none, compat_features := [] }

/-- A configuration with the given target and empty exceptions. -/
def sampleConfig (target : String) : BaselineConfig :=
  { target := target, browsers := ["chrome", "firefox"], exceptions := [],
    ignoreFiles := [], framework := none, generateFixes := false,
    reportFormat := "console", outputFile := none }

/-- A one-record registry binding the key "display". -/
def sampleMap : FeatureMap := [("display", sampleFeatureHigh)]

/-- A one-record registry binding the key "flex". -/
def flexMap : FeatureMap := [("flex", sampleFeatureHigh)]

/-- A declaration value longer than the 100-character bound. -/
def longValue : String := String.mk (List.replicate 120 'a')

/-- A declaration whose `prop: value` context exceeds 100 characters. -/
def longDecl : DeclNode :=
  { prop := "display", value := longValue, line := 1, column := 3,
    raw := "display: " ++ longValue }

/-- A parsed stylesheet holding only `longDecl`. -/
def longRoot : PostcssRoot := { decls := [longDecl], rules := [], atRules := [] }

/-- A minimal usage with the given tier, for score instantiation. -/
def sampleUsage (b : Option Tier) : FeatureUsage :=
  { feature := "f", featureId := "f", file := "a.css", line := 1, column := 0,
    context := "", baseline := b, browsers := emptySupport, severity := .info,
    suggestion := none, polyfill := none, alternative := none }

/-- A short declaration, emitted with its full context. -/
def flexDecl : DeclNode :=
  { prop := "display", value := "flex", line := 1, column := 3, raw := "display: flex" }

/-- A parsed stylesheet holding only `flexDecl`. -/
def flexRoot : PostcssRoot := { decls := [flexDecl], rules := [], atRules := [] }

/-- The usage the CSS extractor emits for `flexRoot` over `sampleMap`
under a widely-available target. -/
def sampleEmitted : FeatureUsage :=
  { feature := "display", featureId := "display", file := "a.css", line := 1,
    column := 3, context := "display: flex", baseline := some Tier.widely,
    browsers :=
      { chrome := some "1", firefox := some "1", safari := some "1",
        edge := some "12", chrome_android := none, firefox_android := none,
        safari_ios := none },
    severity := Severity.info, suggestion := none, polyfill := none,
    alternative := none }

/-- The usage the script extractor emits for "fetch(x)" over a
one-record fetch registry under a limited target. -/
def fetchUsage : FeatureUsage :=
  { feature := "fetch", featureId := "fetch", file := "a.js", line := 1,
    column := 0, context := "fetch(x)", baseline := some Tier.widely,
    browsers :=
      { chrome := some "1", firefox := some "1", safari := some "1",
        edge := some "12", chrome_android := none, firefox_android := none,
        safari_ios := none },
    severity := Severity.info, suggestion := none,
    polyfill := some "whatwg-fetch polyfill",
    alternative := some "Use XMLHttpRequest or axios library" }

/-- The per-line candidate feature vocabulary of
`analyzeLineForFeatures`, in testing order: each candidate is tested
once per line, so this list bounds the per-line emissions. -/
def candidateFeatures : List String :=
  arrayMethods.map (fun mth => "array-" ++ mth)
    ++ stringMethods.map (fun mth => "string-" ++ mth)
    ++ objectMethods.map (fun mth => "object-" ++ mth)
    ++ synTable.map (fun e => e.2.1)
    ++ apiTable.map (fun e => e.2.1)

/-- Restatement of the §4.4 per-usage points table in the spec's words:
widely-available 100, newly-available 75, limited 25, anything else 50.
Used as the comparison side of the score-refinement claim. -/
def usagePoints (f : FeatureUsage) : Nat :=
  match f.baseline with
  | some .widely => 100
  | some .newly => 75
  | some .limited => 25
  | none => 50

/-- Restatement of the spec's compatibility-score formula: round of the
mean of per-usage points, 100 on empty input. -/
def compatibilityScoreSpec (features : List FeatureUsage) : Nat :=
  if features = [] then 100
  else mathRound (features.map usagePoints).sum features.length

/-- Restatement of the spec's risk-score formula:
round(100 × (3·errors + 1·warnings) / (3·totalUsages)), 0 when
totalUsages = 0. -/
def riskScoreSpec (result : AnalysisResult) : Nat :=
  if result.totalFeatures = 0 then 0
  else
    mathRound (100 * (3 * result.summary.errors + 1 * result.summary.warnings))
      (3 * result.totalFeatures)

/-! ## Shared lemmas -/

/-- The slice of a string to `n` characters has length at most `n`. -/
theorem jsSlice_length_le (s : String) (n : Nat) : (jsSlice s n).length ≤ n := by
  unfold jsSlice
  have h : (String.mk (s.data.take n)).length = (s.data.take n).length := rfl
  rw [h, List.length_take]
  exact Nat.min_le_left n _

/-- When a point query yields a tier, its acceptance flag is exactly the
target evaluation of that tier. -/
theorem checkFeature_meets_eq (m : FeatureMap) (config : BaselineConfig) (q : String)
    (b : Tier) (h : (checkFeature m config q).baseline = some b) :
    (checkFeature m config q).meetsCriteria = evaluateCriteria config b := by
  unfold checkFeature at h ⊢
  cases hf : findFeature m q with
  | none => rw [hf] at h; simp at h
  | some f =>
    rw [hf] at h
    simp only at h ⊢
    cases hs : f.status with
    | none => rw [hs] at h; simp at h
    | some st =>
      rw [hs] at h
      simp only at h ⊢
      simp only [Option.some.injEq] at h
      rw [h]

/-- Membership in a guarded emission comes from the emitted list. -/
theorem mem_ite_emit {c : Prop} [Decidable c] {L : List FeatureUsage} {u : FeatureUsage}
    (h : u ∈ if c then L else []) : u ∈ L := by
  by_cases hc : c
  · rwa [if_pos hc] at h
  · rw [if_neg hc] at h
    simp at h

/-- Every usage pushed by the CSS emitter has a non-null tier whose
severity follows the shared rule applied to the target evaluation. -/
theorem mem_cssEmit_spec (m : FeatureMap) (config : BaselineConfig) (fid : String)
    (node : CssNodeRef) (path ty : String) (u : FeatureUsage)
    (h : u ∈ cssEmit m config fid node path ty) :
    ∃ b, u.baseline = some b ∧
      u.severity = cssDetermineSeverity b (evaluateCriteria config b) := by
  unfold cssEmit at h
  simp only at h
  cases hb : (checkFeature m config fid).baseline with
  | none => rw [hb] at h; simp at h
  | some b =>
    rw [hb] at h
    simp only [List.mem_singleton] at h
    subst h
    refine ⟨b, rfl, ?_⟩
    simp only
    rw [checkFeature_meets_eq m config fid b hb]

/-- Every usage of `analyzeValue` comes from some CSS emission. -/
theorem mem_analyzeValue (m : FeatureMap) (config : BaselineConfig) (v : String)
    (node : CssNodeRef) (path : String) (u : FeatureUsage)
    (h : u ∈ analyzeValue m config v node path) :
    ∃ fid ty, u ∈ cssEmit m config fid node path ty := by
  unfold analyzeValue at h
  simp only [List.mem_append, List.mem_flatMap] at h
  rcases h with (⟨f, _, hu⟩ | ⟨k, _, hu⟩) | ⟨un, _, hu⟩
  · exact ⟨f, "function", hu⟩
  · exact ⟨k, "keyword", hu⟩
  · exact ⟨un ++ "-unit", "unit", mem_ite_emit hu⟩

/-- Every usage of `analyzeDeclaration` comes from some CSS emission. -/
theorem mem_analyzeDeclaration (m : FeatureMap) (config : BaselineConfig) (d : DeclNode)
    (path : String) (u : FeatureUsage)
    (h : u ∈ analyzeDeclaration m config d path) :
    ∃ fid ty, u ∈ cssEmit m config fid (.decl d) path ty := by
  unfold analyzeDeclaration at h
  simp only [List.mem_append] at h
  rcases h with (hu | hu) | hu
  · exact ⟨d.prop, "property", hu⟩
  · exact mem_analyzeValue m config d.value (.decl d) path u hu
  · exact ⟨stripVendor d.prop, "prefixed-property", mem_ite_emit hu⟩

/-- Every usage of `analyzeSelector` comes from some CSS emission. -/
theorem mem_analyzeSelector (m : FeatureMap) (config : BaselineConfig) (r : RuleNode)
    (path : String) (u : FeatureUsage)
    (h : u ∈ analyzeSelector m config r path) :
    ∃ fid ty, u ∈ cssEmit m config fid (.rule r) path ty := by
  unfold analyzeSelector at h
  cases hs : r.sel with
  | none => rw [hs] at h; simp at h
  | some parts =>
    rw [hs] at h
    simp only [List.mem_append, List.mem_flatMap] at h
    rcases h with (⟨p, _, hu⟩ | ⟨attr, _, hu⟩) | ⟨cb, _, hu⟩
    · exact ⟨p, "pseudo-selector", hu⟩
    · exact ⟨"[" ++ attr ++ "]", "attribute-selector", mem_ite_emit hu⟩
    · exact ⟨"deep-combinator", "combinator", mem_ite_emit hu⟩

/-- Every usage of `analyzeAtRule` comes from some CSS emission. -/
theorem mem_analyzeAtRule (m : FeatureMap) (config : BaselineConfig) (a : AtRuleNode)
    (path : String) (u : FeatureUsage)
    (h : u ∈ analyzeAtRule m config a path) :
    ∃ fid ty, u ∈ cssEmit m config fid (.atRule a) path ty := by
  unfold analyzeAtRule at h
  simp only [List.mem_append] at h
  rcases h with hu | hu
  · exact ⟨"@" ++ a.name, "at-rule", hu⟩
  · split at hu
    · unfold analyzeMediaQuery at hu
      simp only [List.mem_flatMap] at hu
      obtain ⟨f, _, hu⟩ := hu
      exact ⟨f, "media-feature", hu⟩
    · split at hu
      · unfold analyzeSupportsQuery at hu
        simp only [List.mem_flatMap] at hu
        obtain ⟨p, _, hu⟩ := hu
        exact ⟨p, "supports-property", hu⟩
      · split at hu
        · exact ⟨"container-queries", "at-rule", hu⟩
        · split at hu
          · exact ⟨"cascade-layers", "at-rule", hu⟩
          · simp at hu

/-- Every feature of a CSS file analysis comes from some emission. -/
theorem mem_css_features (m : FeatureMap) (config : BaselineConfig)
    (pr : Except String PostcssRoot) (path : String) (u : FeatureUsage)
    (h : u ∈ (cssAnalyze m config pr path).features) :
    ∃ fid node ty, u ∈ cssEmit m config fid node path ty := by
  cases pr with
  | error e => simp [cssAnalyze] at h
  | ok root =>
    unfold cssAnalyze at h
    simp only [List.mem_append, List.mem_flatMap] at h
    rcases h with (⟨d, _, hu⟩ | ⟨r, _, hu⟩) | ⟨a, _, hu⟩
    · obtain ⟨fid, ty, hu⟩ := mem_analyzeDeclaration m config d path u hu
      exact ⟨fid, .decl d, ty, hu⟩
    · obtain ⟨fid, ty, hu⟩ := mem_analyzeSelector m config r path u hu
      exact ⟨fid, .rule r, ty, hu⟩
    · obtain ⟨fid, ty, hu⟩ := mem_analyzeAtRule m config a path u hu
      exact ⟨fid, .atRule a, ty, hu⟩

/-- Every usage pushed by the script emitter carries the feature id, the
line number, column 0, a non-null tier and the shared severity rule. -/
theorem addFeature_mem_spec (m : FeatureMap) (config : BaselineConfig) (fid ctx : String)
    (ln : Nat) (path : String) (u : FeatureUsage)
    (h : u ∈ addFeature m config fid ctx ln path) :
    u.feature = fid ∧ u.line = ln ∧ u.column = 0 ∧
      ∃ b, u.baseline = some b ∧
        u.severity = jsDetermineSeverity b (evaluateCriteria config b) := by
  unfold addFeature at h
  simp only at h
  cases hb : (checkFeature m config fid).baseline with
  | none => rw [hb] at h; simp at h
  | some b =>
    rw [hb] at h
    simp only [List.mem_singleton] at h
    subst h
    refine ⟨rfl, rfl, rfl, b, rfl, ?_⟩
    simp only
    rw [checkFeature_meets_eq m config fid b hb]

/-- Every usage of one line scan comes from some script emission on
that line. -/
theorem mem_analyzeLineForFeatures (retest : String → String → Bool) (m : FeatureMap)
    (config : BaselineConfig) (line : String) (ln : Nat) (path : String)
    (u : FeatureUsage) (h : u ∈ analyzeLineForFeatures retest m config line ln path) :
    ∃ fid, u ∈ addFeature m config fid line ln path := by
  unfold analyzeLineForFeatures at h
  simp only [List.mem_append, List.mem_flatMap] at h
  rcases h with (((⟨mth, _, hu⟩ | ⟨mth, _, hu⟩) | ⟨mth, _, hu⟩) | ⟨e, _, hu⟩) | ⟨e, _, hu⟩
  · exact ⟨"array-" ++ mth, mem_ite_emit hu⟩
  · exact ⟨"string-" ++ mth, mem_ite_emit hu⟩
  · exact ⟨"object-" ++ mth, mem_ite_emit hu⟩
  · exact ⟨e.2.1, mem_ite_emit hu⟩
  · exact ⟨e.2.1, mem_ite_emit hu⟩

/-- Every usage of the line loop comes from some line scan whose line
number exceeds the starting index. -/
theorem mem_analyzeLines (retest : String → String → Bool) (m : FeatureMap)
    (config : BaselineConfig) (path : String) :
    ∀ (ls : List String) (idx : Nat) (u : FeatureUsage),
      u ∈ analyzeLines retest m config path ls idx →
      ∃ l ln, idx + 1 ≤ ln ∧ u ∈ analyzeLineForFeatures retest m config l ln path := by
  intro ls
  induction ls with
  | nil => intro idx u h; simp [analyzeLines] at h
  | cons l ls ih =>
    intro idx u h
    unfold analyzeLines at h
    rcases List.mem_append.mp h with hu | hu
    · exact ⟨l, idx + 1, le_rfl, hu⟩
    · obtain ⟨l2, ln, hln, hu⟩ := ih (idx + 1) u hu
      exact ⟨l2, ln, by omega, hu⟩

/-- The script emitter pushes at most one usage, carrying its feature
id. -/
theorem addFeature_feature_sublist (m : FeatureMap) (config : BaselineConfig)
    (fid ctx : String) (ln : Nat) (path : String) :
    List.Sublist ((addFeature m config fid ctx ln path).map (fun u => u.feature))
      [fid] := by
  unfold addFeature
  simp only
  cases hb : (checkFeature m config fid).baseline with
  | none => simp
  | some b => simp

/-- A guarded emission keeps the feature bound of its list. -/
theorem ite_emit_feature_sublist (c : Prop) [Decidable c] (L : List FeatureUsage)
    (fid : String) (h : List.Sublist (L.map (fun u => u.feature)) [fid]) :
    List.Sublist ((if c then L else []).map (fun u => u.feature)) [fid] := by
  split
  · exact h
  · simp

/-- Features of a per-candidate emission loop are a sublist of the
per-candidate feature names. -/
theorem flatMap_feature_sublist {α : Type} (l : List α) (g : α → List FeatureUsage)
    (featF : α → String)
    (hg : ∀ a, List.Sublist ((g a).map (fun u => u.feature)) [featF a]) :
    List.Sublist ((l.flatMap g).map (fun u => u.feature)) (l.map featF) := by
  induction l with
  | nil => simp
  | cons a l ih =>
    rw [List.flatMap_cons, List.map_append, List.map_cons]
    have : ([featF a] : List String) ++ l.map featF = featF a :: l.map featF := rfl
    rw [← this]
    exact List.Sublist.append (hg a) ih

/-- One line scan emits at most one usage per candidate feature, in
candidate order. -/
theorem analyzeLine_feature_sublist (retest : String → String → Bool) (m : FeatureMap)
    (config : BaselineConfig) (line : String) (ln : Nat) (path : String) :
    List.Sublist
      ((analyzeLineForFeatures retest m config line ln path).map (fun u => u.feature))
      candidateFeatures := by
  unfold analyzeLineForFeatures candidateFeatures
  rw [List.map_append, List.map_append, List.map_append, List.map_append]
  refine List.Sublist.append (List.Sublist.append (List.Sublist.append
    (List.Sublist.append ?_ ?_) ?_) ?_) ?_
  · exact flatMap_feature_sublist _ _ _ (fun mth =>
      ite_emit_feature_sublist _ _ _ (addFeature_feature_sublist _ _ _ _ _ _))
  · exact flatMap_feature_sublist _ _ _ (fun mth =>
      ite_emit_feature_sublist _ _ _ (addFeature_feature_sublist _ _ _ _ _ _))
  · exact flatMap_feature_sublist _ _ _ (fun mth =>
      ite_emit_feature_sublist _ _ _ (addFeature_feature_sublist _ _ _ _ _ _))
  · exact flatMap_feature_sublist _ _ _ (fun e =>
      ite_emit_feature_sublist _ _ _ (addFeature_feature_sublist _ _ _ _ _ _))
  · exact flatMap_feature_sublist _ _ _ (fun e =>
      ite_emit_feature_sublist _ _ _ (addFeature_feature_sublist _ _ _ _ _ _))

/-- The candidate feature vocabulary has no duplicates. -/
theorem candidateFeatures_nodup : candidateFeatures.Nodup := by decide

/-- Usages of one line scan carry that line number. -/
theorem analyzeLine_line_eq (retest : String → String → Bool) (m : FeatureMap)
    (config : BaselineConfig) (line : String) (ln : Nat) (path : String)
    (u : FeatureUsage) (h : u ∈ analyzeLineForFeatures retest m config line ln path) :
    u.line = ln := by
  obtain ⟨fid, hu⟩ := mem_analyzeLineForFeatures retest m config line ln path u h
  exact (addFeature_mem_spec m config fid line ln path u hu).2.1

/-- The (line, feature) pairs of the line loop are duplicate-free. -/
theorem analyzeLines_pairs_nodup (retest : String → String → Bool) (m : FeatureMap)
    (config : BaselineConfig) (path : String) :
    ∀ (ls : List String) (idx : Nat),
      ((analyzeLines retest m config path ls idx).map
        (fun u => (u.line, u.feature))).Nodup := by
  intro ls
  induction ls with
  | nil => intro idx; simp [analyzeLines]
  | cons l ls ih =>
    intro idx
    unfold analyzeLines
    rw [List.map_append]
    refine List.Nodup.append ?_ (ih (idx + 1)) ?_
    · have hfeat :
          ((analyzeLineForFeatures retest m config l (idx + 1) path).map
            (fun u => u.feature)).Nodup :=
        List.Nodup.sublist
          (analyzeLine_feature_sublist retest m config l (idx + 1) path)
          candidateFeatures_nodup
      have hmm :
          (((analyzeLineForFeatures retest m config l (idx + 1) path).map
            (fun u => (u.line, u.feature))).map Prod.snd).Nodup := by
        rw [List.map_map]
        exact hfeat
      exact hmm.of_map
    · intro a ha hb
      simp only [List.mem_map] at ha hb
      obtain ⟨u1, hu1, he1⟩ := ha
      obtain ⟨u2, hu2, he2⟩ := hb
      have h1 : u1.line = idx + 1 :=
        analyzeLine_line_eq retest m config l (idx + 1) path u1 hu1
      obtain ⟨l2, ln2, hln2, hu2'⟩ :=
        mem_analyzeLines retest m config path ls (idx + 1) u2 hu2
      have h2 : u2.line = ln2 :=
        analyzeLine_line_eq retest m config l2 ln2 path u2 hu2'
      have ha1 : a.1 = idx + 1 := by rw [← he1]; exact h1
      have ha2 : a.1 = ln2 := by rw [← he2]; exact h2
      omega

/-! ## Claims -/

/-- C1: for every token unmatched at every lookup stage (exact key,
lowercase key, CSS variations, substring fallback), `checkFeature`
returns baseline = null, an empty browser-support map and
meetsCriteria = false (it is a total function, so no exception is
raised), together with the not-found suggestion. -/
theorem c1_unmatched_not_found (m : FeatureMap) (config : BaselineConfig) (tok : String)
    (h1 : mapHas m tok = false)
    (h2 : mapHas m (jsToLowerCase tok) = false)
    (h3 : ∀ v ∈ generateCssVariations tok, mapHas m v = false)
    (h4 : fuzzySearch m tok = none) :
    checkFeature m config tok =
      { baseline := none, browsers := emptySupport, meetsCriteria := false,
        suggestion :=
          some ("Feature \"" ++ tok ++ "\" not found in web-features database") } := by
  have hvar : (generateCssVariations tok).find? (fun v => mapHas m v) = none :=
    List.find?_eq_none.mpr (fun v hv => by simp [h3 v hv])
  have hff : findFeature m tok = none := by
    unfold findFeature
    simp [h1, h2, hvar, h4]
  unfold checkFeature
  rw [hff]

/-- C1 witness: the empty registry matches nothing at any stage. -/
theorem c1_unmatched_not_found_witness :
    checkFeature [] (sampleConfig "widely-available") "zz" =
      { baseline := none, browsers := emptySupport, meetsCriteria := false,
        suggestion :=
          some ("Feature \"zz\" not found in web-features database") } :=
  c1_unmatched_not_found [] (sampleConfig "widely-available") "zz"
    (by decide) (by decide) (by decide) (by decide)

/-- C2: acceptance table of `evaluateCriteria` — a widely-available
target accepts only the widely tier, a newly-available target accepts
widely and newly, a limited target accepts everything — and every
matched token of widely tier meets the criteria under each of the three
target values. -/
theorem c2_target_acceptance (m : FeatureMap) (brs exc ign : List String)
    (fw : Option String) (gf : Bool) (rf : String) (outF : Option String)
    (b : Tier) (tok : String) :
    evaluateCriteria ⟨"widely-available", brs, exc, ign, fw, gf, rf, outF⟩ b
        = (b == Tier.widely)
    ∧ evaluateCriteria ⟨"newly-available", brs, exc, ign, fw, gf, rf, outF⟩ b
        = (b == Tier.widely || b == Tier.newly)
    ∧ evaluateCriteria ⟨"limited", brs, exc, ign, fw, gf, rf, outF⟩ b = true
    ∧ (∀ t, (t = "widely-available" ∨ t = "newly-available" ∨ t = "limited") →
        (checkFeature m ⟨t, brs, exc, ign, fw, gf, rf, outF⟩ tok).baseline
            = some Tier.widely →
        (checkFeature m ⟨t, brs, exc, ign, fw, gf, rf, outF⟩ tok).meetsCriteria = true) := by
  refine ⟨by cases b <;> rfl, by cases b <;> rfl, by cases b <;> rfl, ?_⟩
  intro t ht hb
  rw [checkFeature_meets_eq _ _ _ _ hb]
  rcases ht with h | h | h <;> subst h <;> rfl

/-- C2 witness: a widely-available record meets a widely target. -/
theorem c2_target_acceptance_witness :
    (checkFeature flexMap
        ⟨"widely-available", ["chrome", "firefox"], [], [], none, false, "console", none⟩
        "flex").meetsCriteria = true :=
  (c2_target_acceptance flexMap ["chrome", "firefox"] [] [] none false "console" none
      Tier.widely "flex").2.2.2 "widely-available" (Or.inl rfl) (by decide)

/-- C5: the exceptions list never alters a point-query classification —
two configurations differing only in their exceptions lists produce
identical `checkFeature` results for every token. -/
theorem c5_exceptions_never_alter (m : FeatureMap) (config : BaselineConfig)
    (exc : List String) (tok : String) :
    checkFeature m { config with exceptions := exc } tok = checkFeature m config tok := by
  unfold checkFeature
  cases findFeature m tok with
  | none => rfl
  | some f =>
    cases f.status with
    | none => rfl
    | some st =>
      simp only
      unfold evaluateCriteria generateSuggestion
      rfl

/-- C9: a postcss parse failure is caught inside the CSS extractor: the
file degrades to a `FileAnalysis` with an empty feature list, and since
`cssAnalyze` is a total function returning that record, the error never
propagates to the caller. -/
theorem c9_parse_failure_degrades (m : FeatureMap) (config : BaselineConfig)
    (e : String) (path : String) :
    cssAnalyze m config (Except.error e) path =
      { file := path, type := "css", features := [] } := rfl

/-- C10: a token resolving to a record with no status field gets the
same not-found descriptor as an unmatched token. -/
theorem c10_no_status_not_found (m : FeatureMap) (config : BaselineConfig)
    (tok : String) (f : Feature)
    (h1 : findFeature m tok = some f) (h2 : f.status = none) :
    checkFeature m config tok =
      { baseline := none, browsers := emptySupport, meetsCriteria := false,
        suggestion :=
          some ("Feature \"" ++ tok ++ "\" not found in web-features database") } := by
  unfold checkFeature
  rw [h1]
  simp only
  rw [h2]

/-- C10 witness: a concrete status-less record. -/
theorem c10_no_status_not_found_witness :
    checkFeature [("x", sampleFeatureNoStatus)] (sampleConfig "widely-available") "x" =
      { baseline := none, browsers := emptySupport, meetsCriteria := false,
        suggestion :=
          some ("Feature \"x\" not found in web-features database") } :=
  c10_no_status_not_found [("x", sampleFeatureNoStatus)] (sampleConfig "widely-available")
    "x" sampleFeatureNoStatus (by decide) (by decide)

/-- C4: the aggregated compatibility score equals the spec's rounded
mean of per-usage points; in particular the empty list scores 100, two
widely-available usages score 100, and one limited usage scores 25. -/
theorem c4_compatibility_score :
    (∀ fs, calculateCompatibilityScore fs = compatibilityScoreSpec fs)
    ∧ calculateCompatibilityScore [] = 100
    ∧ (∀ u1 u2 : FeatureUsage, u1.baseline = some Tier.widely →
        u2.baseline = some Tier.widely → calculateCompatibilityScore [u1, u2] = 100)
    ∧ (∀ u : FeatureUsage, u.baseline = some Tier.limited →
        calculateCompatibilityScore [u] = 25) := by
  refine ⟨?_, rfl, ?_, ?_⟩
  · intro fs
    unfold calculateCompatibilityScore compatibilityScoreSpec
    cases fs with
    | nil => rfl
    | cons a l =>
      rw [if_neg (by simp), if_neg (by simp)]
      simp only
      rw [List.sum_eq_foldl, List.length_map]
      rfl
  · intro u1 u2 h1 h2
    unfold calculateCompatibilityScore
    rw [if_neg (by simp)]
    simp only [List.map_cons, List.map_nil, h1, h2]
    rfl
  · intro u h
    unfold calculateCompatibilityScore
    rw [if_neg (by simp)]
    simp only [List.map_cons, List.map_nil, h]
    rfl

/-- C4 witness: concrete usages at the stated example points. -/
theorem c4_compatibility_score_witness :
    calculateCompatibilityScore
        [sampleUsage (some Tier.widely), sampleUsage (some Tier.widely)] = 100
    ∧ calculateCompatibilityScore [sampleUsage (some Tier.limited)] = 25 :=
  ⟨c4_compatibility_score.2.2.1 _ _ rfl rfl, c4_compatibility_score.2.2.2 _ rfl⟩

/-- C8: the JSON report's risk score equals the spec's formula
round(100 × (3·errors + 1·warnings) / (3·totalUsages)), and is 0 when
no usages exist. -/
theorem c8_risk_score (r : AnalysisResult) :
    calculateRiskScore r = riskScoreSpec r := by
  unfold calculateRiskScore riskScoreSpec mathRound
  simp only
  by_cases h : r.totalFeatures = 0
  · simp [h]
  · rw [if_neg (by omega : ¬ (r.totalFeatures * 3 = 0)), if_neg h]
    congr 1 <;> ring

set_option maxRecDepth 10000 in
/-- C6 counterexample: a declaration whose `prop: value` context is 129
characters long is emitted untruncated, so the claimed 100-character
bound fails on this stylesheet. -/
theorem c6_truncation_counterexample :
    (cssAnalyze sampleMap (sampleConfig "widely-available") (Except.ok longRoot)
        "styles.css").features.any (fun u => decide (100 < u.context.length)) = true := by
  decide

/-- C6 amended: only default-case contexts (feature kinds other than
property, at-rule and pseudo-selector) are truncated, to 100 characters
plus at most a 3-character ellipsis, i.e. 103; property, at-rule and
pseudo-selector contexts are emitted in full and may exceed 100. -/
theorem c6_default_contexts_truncated (node : CssNodeRef) (ty : String)
    (h1 : ty ≠ "property") (h2 : ty ≠ "at-rule") (h3 : ty ≠ "pseudo-selector") :
    (getContext node ty).length ≤ 103 := by
  unfold getContext
  rw [if_neg (by simpa using h1), if_neg (by simpa using h2), if_neg (by simpa using h3)]
  rw [String.length_append]
  have hs := jsSlice_length_le (nodeRaw node) 100
  split
  · have h3 : ("..." : String).length = 3 := rfl
    omega
  · have h0 : ("" : String).length = 0 := rfl
    omega

/-- C6 amended witness: a function-kind context on the long node. -/
theorem c6_default_contexts_truncated_witness :
    (getContext (.decl longDecl) "function").length ≤ 103 :=
  c6_default_contexts_truncated (.decl longDecl) "function"
    (by decide) (by decide) (by decide)

/-- C3: every usage emitted by either extractor has a non-null tier,
and its severity follows the shared rule — info when the tier meets the
target, else error for the limited tier and warning otherwise — with
both extractors using the same severity function. -/
theorem c3_severity_rule (m : FeatureMap) (config : BaselineConfig)
    (pr : Except String PostcssRoot) (path : String)
    (retest : String → String → Bool) (content : String) (jsPath : String) :
    (∀ u ∈ (cssAnalyze m config pr path).features,
      ∃ b, u.baseline = some b ∧
        u.severity = cssDetermineSeverity b (evaluateCriteria config b))
    ∧ (∀ u ∈ (jsAnalyze retest m config content jsPath).features,
      ∃ b, u.baseline = some b ∧
        u.severity = jsDetermineSeverity b (evaluateCriteria config b))
    ∧ cssDetermineSeverity = jsDetermineSeverity := by
  refine ⟨?_, ?_, rfl⟩
  · intro u hu
    obtain ⟨fid, node, ty, h⟩ := mem_css_features m config pr path u hu
    exact mem_cssEmit_spec m config fid node path ty u h
  · intro u hu
    obtain ⟨l, ln, _, hu⟩ :=
      mem_analyzeLines retest m config jsPath (jsSplit content '\n') 0 u hu
    obtain ⟨fid, hu⟩ := mem_analyzeLineForFeatures retest m config l ln jsPath u hu
    exact (addFeature_mem_spec m config fid l ln jsPath u hu).2.2.2

/-- C3 witness: the usage emitted for `flexRoot` satisfies the rule. -/
theorem c3_severity_rule_witness :
    ∃ b, sampleEmitted.baseline = some b ∧
      sampleEmitted.severity =
        cssDetermineSeverity b (evaluateCriteria (sampleConfig "widely-available") b) :=
  (c3_severity_rule sampleMap (sampleConfig "widely-available") (Except.ok flexRoot)
      "a.css" (fun _ _ => true) "" "a.js").1 sampleEmitted (by decide)

/-- C7: over any input text and any regex oracle, the line-based script
extractor emits at most one usage per (line number, feature token) pair
— the emitted pair list is duplicate-free — and every emitted usage has
column 0. -/
theorem c7_line_feature_unique (retest : String → String → Bool) (m : FeatureMap)
    (config : BaselineConfig) (content : String) (path : String) :
    ((jsAnalyze retest m config content path).features.map
        (fun u => (u.line, u.feature))).Nodup
    ∧ ∀ u ∈ (jsAnalyze retest m config content path).features, u.column = 0 := by
  constructor
  · exact analyzeLines_pairs_nodup retest m config path (jsSplit content '\n') 0
  · intro u hu
    obtain ⟨l, ln, _, hu⟩ :=
      mem_analyzeLines retest m config path (jsSplit content '\n') 0 u hu
    obtain ⟨fid, hu⟩ := mem_analyzeLineForFeatures retest m config l ln path u hu
    exact (addFeature_mem_spec m config fid l ln path u hu).2.2.1

set_option maxRecDepth 200000 in
/-- C7 witness: the usage emitted for the concrete scan of "fetch(x)"
has column 0. -/
theorem c7_line_feature_unique_witness : fetchUsage.column = 0 :=
  (c7_line_feature_unique (fun _ _ => true) [("fetch", sampleFeatureHigh)]
      (sampleConfig "limited") "fetch(x)" "a.js").2 fetchUsage (by decide)

end BaselineFlow
